import Mathlib

/-!
Configuration lifecycle of inspect-http-proxy.

A shallow embedding of `pkg/core/proxy_config.go` (`RegisterConfiguration`,
`ExportCurrentProxiesToConfig`) and of the two API tests of
`pkg/web/api/api_configs_test.go` (`TestHandleConfigs`, `TestHandleDeleteConfig`).

Everything the Go code reaches outside the process (viper, the working
directory, the file system, the TOML and JSON codecs, the store) is explicit:
the state the calls read and write is a `World`, the library functions are the
fields of `Ext`, and each call that leaves the process is recorded in
`World.trace`.
-/

namespace Core

/-! ## Data model -/

/-- The record `SysConfigProxyEntry` built at `proxy_config.go:74-78`. -/
structure SysConfigProxyEntry where
  Listen : String
  Target : String
  TruncateLogBody : Bool
deriving DecidableEq, Repr

/-- A `*url.URL`, kept by the text `String()` renders it to. -/
structure URL where
  text : String
deriving DecidableEq, Repr

/-- The method `(*url.URL).String`. -/
def URL.String (u : URL) : String := u.text

/-- The registry info `GetProxyConfig` returns; the three fields read at
`proxy_config.go:75-77`. -/
structure ProxyConfig where
  ListenAddr : String
  TargetURL : URL
  TruncateLogBody : Bool
deriving DecidableEq, Repr

/-- The system configuration behind `GetSysConfig`: its `Proxies` list and, in
`Rest`, the fields this subsystem never touches. -/
structure SysConfig where
  Proxies : List SysConfigProxyEntry
  Rest : List (String × String)
deriving DecidableEq, Repr

/-- Modelled from the spec: the process-wide `GlobalVar` (spec 4.1), whose
declaration is not among the sources. `configs` is the selected working set
behind `ConfigClear`, `ConfigAdd` and `ConfigGetAll`; `proxyConfigs` holds the
registry info per identifier; `proxyServers` the identifiers that have a running
server; `sysConfig` the in-memory mirror (`none` is the nil pointer). -/
structure GlobalVarT where
  configs : List String
  proxyConfigs : List (String × ProxyConfig)
  proxyServers : List String
  sysConfig : Option SysConfig
deriving DecidableEq, Repr

namespace GlobalVarT

/-- Modelled from the spec: `GlobalVar.ConfigGetAll()`. -/
def ConfigGetAll (g : GlobalVarT) : List String := g.configs

/-- Modelled from the spec: `GlobalVar.ConfigClear()`. -/
def ConfigClear (g : GlobalVarT) : GlobalVarT := { g with configs := [] }

/-- Modelled from the spec: `GlobalVar.ConfigAdd(id)`: the working set is a set,
an identifier enters once. -/
def ConfigAdd (g : GlobalVarT) (id : String) : GlobalVarT :=
  if id ∈ g.configs then g else { g with configs := g.configs ++ [id] }

/-- Modelled from the spec: `GlobalVar.GetProxyConfig(id)`: `none` is the nil pointer. -/
def GetProxyConfig (g : GlobalVarT) (id : String) : Option ProxyConfig :=
  g.proxyConfigs.lookup id

/-- Modelled from the spec: `GlobalVar.HasProxyServer(id)`. -/
def HasProxyServer (g : GlobalVarT) (id : String) : Bool :=
  decide (id ∈ g.proxyServers)

/-- Modelled from the spec: `GlobalVar.AddProxyServer(id, server)`; the server
handle itself is not kept. -/
def AddProxyServer (g : GlobalVarT) (id : String) : GlobalVarT :=
  if id ∈ g.proxyServers then g else { g with proxyServers := g.proxyServers ++ [id] }

/-- Modelled from the spec: `GlobalVar.GetSysConfig()`. -/
def GetSysConfig (g : GlobalVarT) : Option SysConfig := g.sysConfig

/-- Modelled from the spec: `GlobalVar.SetSysConfig(c)`. -/
def SetSysConfig (g : GlobalVarT) (c : SysConfig) : GlobalVarT :=
  { g with sysConfig := some c }

end GlobalVarT

/-- A value of the generic document `map[string]any`: either something the TOML
parser produced (kept opaque, of type `V`), or the `[]SysConfigProxyEntry`
slice the exporter stores under "proxies". -/
inductive DocValue (V : Type) where
  | parsed (v : V)
  | entries (l : List SysConfigProxyEntry)
deriving DecidableEq, Repr

/-- The document `map[string]any`, as an association list read by key. -/
abbrev Doc (V : Type) := List (String × DocValue V)

/-- Map read `data[k]`, with presence. -/
def Doc.get {V : Type} (d : Doc V) (k : String) : Option (DocValue V) :=
  d.lookup k

/-- Map write `data[k] = v`: the old binding of `k`, if any, is gone. -/
def Doc.set {V : Type} (d : Doc V) (k : String) (v : DocValue V) : Doc V :=
  (k, v) :: d.filter (fun kv => kv.1 != k)

/-- The row type `ProxyConfigRow` of the store (spec 3, `ConfigRow`). -/
structure ProxyConfigRow where
  ID : String
  SourcePath : String
  Cwd : String
  ConfigJSON : String
deriving DecidableEq, Repr

/-- A call that leaves the process, in the order the code makes it. -/
inductive Event where
  | configFileUsed
  | getwd
  | logWarn (msg : String)
  | logInfo (msg configID : String)
  | getOrCreateConfigRow (sourcePath cwd configJSON : String)
  | readFile (path : String)
  | writeFile (path content : String)
deriving DecidableEq, Repr

/-- What the code can observe and change: `configFile` is what
`viper.ConfigFileUsed()` returns, `cwd` the outcome of `os.Getwd()`, `fs` the
file system, `gv` the `GlobalVar` singleton, `trace` the calls made so far. -/
structure World (F : Type) where
  configFile : String
  cwd : Except String String
  fs : F
  gv : GlobalVarT
  trace : List Event

/-- Record one call. -/
def World.emit {F : Type} (w : World F) (e : Event) : World F :=
  { w with trace := w.trace ++ [e] }

/-- The library functions the code calls, taken as they are: `json.Marshal` on a
proxy entry, `toml.Unmarshal` into the generic document declared at line 63 as
`var data map[string]any` (the result `none` is the map left nil, as a parser
may do for a file without keys), `toml.Marshal`, `os.ReadFile`, `os.WriteFile`
(which returns the file system it leaves behind, also when it fails), and the
store call `GetOrCreateConfigRow` on a store of type `D`. -/
structure Ext (V F D : Type) where
  jsonMarshal : SysConfigProxyEntry → Except String String
  tomlUnmarshal : String → Except String (Option (Doc V))
  tomlMarshal : Doc V → Except String String
  readFile : F → String → Except String String
  writeFile : F → String → String → F × Option String
  getOrCreateConfigRow : D → String → String → String → Except String ProxyConfigRow × D

/-! ## `RegisterConfiguration` (proxy_config.go:16-48) -/

/-- Lines 21-24: the source path, with the sentinel for "no file". -/
def sourcePathOf (configFileUsed : String) : String :=
  if configFileUsed = "" then "cli-flags" else configFileUsed

/-- Lines 26-30: the working directory handed on, "." when `os.Getwd` failed. -/
def workingDirOf (getwd : Except String String) : String :=
  match getwd with
  | Except.ok dir => dir
  | Except.error _ => "."

/-- Line 28: the warning logged when `os.Getwd` failed. -/
def getwdWarning (getwd : Except String String) : List Event :=
  match getwd with
  | Except.ok _ => []
  | Except.error _ => [Event.logWarn "Could not determine current working directory"]

/-- The function `RegisterConfiguration(db, proxyEntry)`. `db = none` is the nil
pointer, `some d` a handle on the store state `d`. Returns the pair
`(id, err)`, the store and the world after the call. -/
def RegisterConfiguration {V F D : Type} (x : Ext V F D) (db : Option D)
    (proxyEntry : SysConfigProxyEntry) (w : World F) :
    (String × Option String) × Option D × World F :=
  match db with
  | none => (("", none), none, w)
  | some d =>
    let w1 := w.emit Event.configFileUsed
    let sourcePath := sourcePathOf w1.configFile
    let w2 := w1.emit Event.getwd
    let cwd := workingDirOf w2.cwd
    let w3 := { w2 with trace := w2.trace ++ getwdWarning w2.cwd }
    match x.jsonMarshal proxyEntry with
    | Except.error err => (("", some err), some d, w3)
    | Except.ok configJSON =>
      let w4 := w3.emit (Event.getOrCreateConfigRow sourcePath cwd configJSON)
      match x.getOrCreateConfigRow d sourcePath cwd configJSON with
      | (Except.error err, d1) => (("", some err), some d1, w4)
      | (Except.ok configRow, d1) =>
        ((configRow.ID, none), some d1,
          w4.emit (Event.logInfo "Configuration session initialized" configRow.ID))

/-! ## `ExportCurrentProxiesToConfig` (proxy_config.go:51-103) -/

/-- The record built at lines 74-78 from the registry info. -/
def entryOf (pc : ProxyConfig) : SysConfigProxyEntry :=
  { Listen := pc.ListenAddr, Target := pc.TargetURL.String,
    TruncateLogBody := pc.TruncateLogBody }

/-- The loop of lines 70-80: walk `ids`, appending to `acc`. -/
def collectActive (g : GlobalVarT) : List String → List SysConfigProxyEntry →
    List SysConfigProxyEntry
  | [], acc => acc
  | id :: rest, acc =>
    match g.GetProxyConfig id with
    | some pc =>
      if g.HasProxyServer id then collectActive g rest (acc ++ [entryOf pc])
      else collectActive g rest acc
    | none => collectActive g rest acc

/-- Lines 69-80: `activeProxies`. -/
def activeProxies (g : GlobalVarT) : List SysConfigProxyEntry :=
  collectActive g g.ConfigGetAll []

/-- Lines 86-90: the update of the in-memory mirror, guarded by `sysConfig != nil`. -/
def updateMirror (g : GlobalVarT) (l : List SysConfigProxyEntry) : GlobalVarT :=
  match g.GetSysConfig with
  | none => g
  | some sysConfig => g.SetSysConfig { sysConfig with Proxies := l }

/-- How a call of `ExportCurrentProxiesToConfig()` ends: it returns its `error`
(`none` is the nil error), or it panics. -/
inductive Outcome where
  | returned (err : Option String)
  | panicked (msg : String)
deriving DecidableEq, Repr

/-- The function `ExportCurrentProxiesToConfig()`. The assignment of line 83
panics when `toml.Unmarshal` left the map nil; lines 69-80 before it only read
the registry. -/
def ExportCurrentProxiesToConfig {V F D : Type} (x : Ext V F D) (w : World F) :
    Outcome × World F :=
  let w1 := w.emit Event.configFileUsed
  let configFile := w1.configFile
  if configFile = "" then
    (Outcome.returned (some "no config file currently in use"), w1)
  else
    let w2 := w1.emit (Event.readFile configFile)
    match x.readFile w2.fs configFile with
    | Except.error err =>
      (Outcome.returned (some ("failed to read config file: " ++ err)), w2)
    | Except.ok content =>
      match x.tomlUnmarshal content with
      | Except.error err => (Outcome.returned (some ("failed to parse TOML: " ++ err)), w2)
      | Except.ok none => (Outcome.panicked "assignment to entry in nil map", w2)
      | Except.ok (some data) =>
        let active := activeProxies w2.gv
        let data1 := data.set "proxies" (DocValue.entries active)
        let w3 := { w2 with gv := updateMirror w2.gv active }
        match x.tomlMarshal data1 with
        | Except.error err =>
          (Outcome.returned (some ("failed to marshal TOML: " ++ err)), w3)
        | Except.ok newContent =>
          let w4 := w3.emit (Event.writeFile configFile newContent)
          match x.writeFile w4.fs configFile newContent with
          | (fs1, some err) =>
            (Outcome.returned (some ("failed to write config file: " ++ err)),
              { w4 with fs := fs1 })
          | (fs1, none) => (Outcome.returned none, { w4 with fs := fs1 })

/-! ## The store and the API handlers -/

/-- The row type `ProxySessionRow` (spec 3, `SessionRow`): the owning
configuration and the request URL. -/
structure ProxySessionRow where
  ConfigID : String
  RequestURL : String
deriving DecidableEq, Repr

/-- The store behind `*gorm.DB`: its two tables, and in `fault` the storage
failure (spec 7, `PersistenceError`) that the operations to which spec 4.2 gives
an error result, getOrCreate and deleteByID, run into; `none` is a storage that
works. -/
structure DB where
  configs : List ProxyConfigRow
  sessions : List ProxySessionRow
  fault : Option String
deriving DecidableEq, Repr

/-- The database `setupTestDB` hands out: no rows, a storage that works. -/
def DB.empty : DB := { configs := [], sessions := [], fault := none }

/-- How the store names a new row: from the rows present and the content of the
new one. The spec leaves the identifier opaque. -/
abbrev IDGen := List ProxyConfigRow → String → String → String → String

/-- Modelled from the spec: `GetOrCreateConfigRow` (spec 4.2, getOrCreate), whose
body is not among the sources. An existing row with the same source path,
working directory and settings is returned, otherwise a row is created and
persisted; on a storage failure the error is returned and no row is written. -/
def GetOrCreateConfigRow (genID : IDGen) (db : DB) (sourcePath cwd configJSON : String) :
    Except String ProxyConfigRow × DB :=
  match db.fault with
  | some err => (Except.error err, db)
  | none =>
    match db.configs.find? (fun r =>
        r.SourcePath == sourcePath && r.Cwd == cwd && r.ConfigJSON == configJSON) with
    | some row => (Except.ok row, db)
    | none =>
      let row : ProxyConfigRow :=
        { ID := genID db.configs sourcePath cwd configJSON, SourcePath := sourcePath,
          Cwd := cwd, ConfigJSON := configJSON }
      (Except.ok row, { db with configs := db.configs ++ [row] })

/-- Modelled from the spec: `CreateProxySession` (spec 6, createSession), whose
body is not among the sources: one session row owned by `configID`. -/
def CreateProxySession (db : DB) (configID requestURL : String) : DB :=
  { db with sessions := db.sessions ++ [{ ConfigID := configID, RequestURL := requestURL }] }

/-- Modelled from the spec: the store lookup getByID (spec 4.2). -/
def DB.getByID (db : DB) (id : String) : Option ProxyConfigRow :=
  db.configs.find? (fun r => r.ID == id)

/-- Modelled from the spec: deleteByID (spec 4.2), the cascade delete in one
transaction, which the test quotes as
`tx.Delete(&core.ProxyConfigRow{}, "id = ?", id)`. It returns the error (`none`
is success); deleting an identifier without a row succeeds; on a storage
failure neither the row nor any of its sessions is removed. -/
def DB.deleteByID (db : DB) (id : String) : Option String × DB :=
  match db.fault with
  | some err => (some err, db)
  | none =>
    (none, { db with configs := db.configs.filter (fun r => r.ID != id),
                     sessions := db.sessions.filter (fun s => s.ConfigID != id) })

/-- The query `db.Model(&core.ProxyConfigRow{}).Where("id = ?", id).Count`. -/
def DB.countConfigs (db : DB) (id : String) : Nat :=
  (db.configs.filter (fun r => r.ID == id)).length

/-- The query `db.Model(&core.ProxySessionRow{}).Where("config_id = ?", id).Count`. -/
def DB.countSessions (db : DB) (id : String) : Nat :=
  (db.sessions.filter (fun s => s.ConfigID == id)).length

end Core

namespace Api

open Core

/-- The five routes of spec 4.5, as the tests request them. -/
inductive Request where
  | getHistory
  | getConfig (id : String)
  | getConfigs
  | getSessions (id : String)
  | deleteConfig (id : String)
deriving DecidableEq, Repr

/-- A response body. -/
inductive Body where
  | configRows (rows : List ProxyConfigRow)
  | configRow (row : ProxyConfigRow)
  | sessionRows (rows : List ProxySessionRow)
  | message (text : String)
deriving DecidableEq, Repr

/-- What `httptest.NewRecorder` holds after `ServeHTTP`. -/
structure Response where
  Code : Nat
  Body : Body
deriving DecidableEq, Repr

/-- The state a handler works on: the store and the `GlobalVar` singleton. -/
structure App where
  db : DB
  gv : GlobalVarT
deriving DecidableEq, Repr

/-- A handler set behind `mux.ServeHTTP`. -/
abbrev Serve := App → Request → Response × App

/-- `http.StatusOK`. -/
def StatusOK : Nat := 200

/-- `http.StatusNotFound`. -/
def StatusNotFound : Nat := 404

/-- `http.StatusConflict`. -/
def StatusConflict : Nat := 409

/-- `http.StatusInternalServerError`. -/
def StatusInternalServerError : Nat := 500

/-- The length the tests read after `json.NewDecoder(w.Body).Decode(&list)` into
a `[]any`: the number of elements of a JSON array, and 0 when the body is not
an array (the decode fails and the slice stays nil). -/
def decodedLen : Body → Nat
  | Body.configRows rows => rows.length
  | Body.sessionRows rows => rows.length
  | Body.configRow _ => 0
  | Body.message _ => 0

/-- Modelled from the spec: the handler of `GET history` (spec 4.5), absent from
the sources: every row ever created. -/
def handleConfigHistory (a : App) : Response × App :=
  ({ Code := StatusOK, Body := Body.configRows a.db.configs }, a)

/-- Modelled from the spec: the handler of `GET configs` (spec 4.5), absent from
the sources: the rows whose identifiers are in the selected working set. -/
def handleConfigs (a : App) : Response × App :=
  ({ Code := StatusOK, Body := Body.configRows (a.gv.ConfigGetAll.filterMap a.db.getByID) }, a)

/-- Modelled from the spec: the handler of `GET configs/id` (spec 4.5), absent
from the sources: the row, or not-found. -/
def handleConfig (a : App) (id : String) : Response × App :=
  match a.db.getByID id with
  | some row => ({ Code := StatusOK, Body := Body.configRow row }, a)
  | none => ({ Code := StatusNotFound, Body := Body.message "config not found" }, a)

/-- Modelled from the spec: the handler of `GET configs/id/sessions` (spec 4.5),
absent from the sources: the sessions owned by `id`, in creation order. -/
def handleConfigSessions (a : App) (id : String) : Response × App :=
  ({ Code := StatusOK,
     Body := Body.sessionRows (a.db.sessions.filter (fun s => s.ConfigID == id)) }, a)

/-- Modelled from the spec: the handler of `DELETE configs/id` (spec 4.5), absent
from the sources: a conflict and no mutation when `isActive(id)`, which is
`HasProxyServer(id)` (the test makes a configuration active with
`AddProxyServer`); otherwise the cascade delete and success, or, when the store
fails, its error under a status of its own (spec 7). -/
def handleDeleteConfig (a : App) (id : String) : Response × App :=
  if a.gv.HasProxyServer id then
    ({ Code := StatusConflict, Body := Body.message "config is active" }, a)
  else
    match a.db.deleteByID id with
    | (some err, db1) =>
      ({ Code := StatusInternalServerError, Body := Body.message err }, { a with db := db1 })
    | (none, db1) =>
      ({ Code := StatusOK, Body := Body.message "deleted" }, { a with db := db1 })

/-- Modelled from the spec: the routes `RegisterRoutes` installs (spec 4.5). -/
def specServe : Serve := fun a req =>
  match req with
  | Request.getHistory => handleConfigHistory a
  | Request.getConfig id => handleConfig a id
  | Request.getConfigs => handleConfigs a
  | Request.getSessions id => handleConfigSessions a id
  | Request.deleteConfig id => handleDeleteConfig a id

/-! ## The tests of `api_configs_test.go`, over any handler set -/

/-- A failed check, as `t.Errorf` reports it, or the panic that ends the test. -/
inductive TestError where
  | status (expected got : Nat)
  | count (what : String) (expected got : Nat)
  | report (text : String)
  | panic (text : String)
deriving DecidableEq, Repr

/-- The check `if w.Code != want then t.Errorf(..)`. -/
def checkStatus (want : Nat) (r : Response) : List TestError :=
  if r.Code != want then [TestError.status want r.Code] else []

/-- The check `if len(list) != want then t.Errorf(..)`. -/
def checkLen (what : String) (want : Nat) (r : Response) : List TestError :=
  if decodedLen r.Body != want then [TestError.count what want (decodedLen r.Body)] else []

/-- What reading `row.ID` does when `GetOrCreateConfigRow` failed and the test,
which drops the error, holds a nil row. -/
def nilRowPanic : TestError :=
  TestError.panic "invalid memory address or nil pointer dereference"

/-- The test `TestHandleConfigs` (lines 13-72): the failures it reports; the test
passes when there is none. -/
def TestHandleConfigs (genID : IDGen) (serve : Serve) (gv0 : GlobalVarT) : List TestError :=
  match GetOrCreateConfigRow genID DB.empty "src1" "cwd1" "\x7b\"p\":1\x7d" with
  | (Except.error _, _) => [nilRowPanic]
  | (Except.ok config1, db1) =>
    let db2 := (GetOrCreateConfigRow genID db1 "src2" "cwd2" "\x7b\"p\":2\x7d").2
    let (r1, a1) := serve { db := db2, gv := gv0 } Request.getHistory
    let e1 := checkStatus StatusOK r1 ++ checkLen "history items" 2 r1
    let (r2, a2) := serve a1 (Request.getConfig config1.ID)
    let e2 := checkStatus StatusOK r2
    let a3 : App := { a2 with gv := a2.gv.ConfigClear.ConfigAdd config1.ID }
    let (r3, a4) := serve a3 Request.getConfigs
    let e3 := checkStatus StatusOK r3 ++ checkLen "configs" 2 r3
    let a5 : App := { a4 with db := CreateProxySession a4.db config1.ID "/sessions-test" }
    let (r4, _) := serve a5 (Request.getSessions config1.ID)
    e1 ++ e2 ++ e3 ++ checkStatus StatusOK r4

/-- The test `TestHandleDeleteConfig` (lines 74-134): the failures it reports. -/
def TestHandleDeleteConfig (genID : IDGen) (serve : Serve) (gv0 : GlobalVarT) :
    List TestError :=
  match GetOrCreateConfigRow genID DB.empty "src-del" "cwd-del" "\x7b\"p\":100\x7d" with
  | (Except.error _, _) => [nilRowPanic]
  | (Except.ok config, db1) =>
    let db2 := CreateProxySession db1 config.ID "/to-be-deleted-1"
    let db3 := CreateProxySession db2 config.ID "/to-be-deleted-2"
    let (r1, a1) := serve { db := db3, gv := gv0 } (Request.deleteConfig config.ID)
    let e1 := checkStatus StatusOK r1
    let e2 := if a1.db.countConfigs config.ID != 0 then
        [TestError.report "Expected config to be deleted, but it still exists"] else []
    let e3 := if a1.db.countSessions config.ID != 0 then
        [TestError.count "sessions still exist" 0 (a1.db.countSessions config.ID)] else []
    match GetOrCreateConfigRow genID a1.db "src-active" "cwd-active" "\x7b\"p\":200\x7d" with
    | (Except.error _, _) => e1 ++ e2 ++ e3 ++ [nilRowPanic]
    | (Except.ok activeConfig, db4) =>
      let a2 : App := { db := db4, gv := a1.gv.AddProxyServer activeConfig.ID }
      let (r2, a3) := serve a2 (Request.deleteConfig activeConfig.ID)
      let e4 := checkStatus StatusConflict r2
      let (r3, _) := serve a3 (Request.deleteConfig "non-existent-id")
      e1 ++ e2 ++ e3 ++ e4 ++ checkStatus StatusOK r3

/-- An identifier generator for concrete runs: the content of the row. -/
def contentID : IDGen := fun _ sourcePath cwd configJSON =>
  sourcePath ++ "|" ++ cwd ++ "|" ++ configJSON

/-- A `GlobalVar` nothing was registered in. -/
def freshGlobalVar : GlobalVarT :=
  { configs := [], proxyConfigs := [], proxyServers := [], sysConfig := none }

end Api

/-! ## Concrete library functions, for running the definitions -/

namespace Demo

open Core Api

/-- A file system for concrete runs: path and content of each file. -/
abbrev Files := List (String × String)

/-- Rendering of one proxy entry. -/
def showEntry (e : SysConfigProxyEntry) : String :=
  e.Listen ++ " -> " ++ e.Target ++ (if e.TruncateLogBody then " (truncate)" else "")

/-- Rendering of one document value. -/
def showValue : DocValue String → String
  | DocValue.parsed v => v
  | DocValue.entries l => String.intercalate "; " (l.map showEntry)

/-- A stand-in for the libraries: files are found by path, a file whose content is
"[[" does not parse, an empty file leaves the map nil, and any other content
parses to a document with the two keys "log_level" and "proxies"; the store is
`GetOrCreateConfigRow` with `contentID`. -/
def ext : Ext String Files DB where
  jsonMarshal := fun e => Except.ok (showEntry e)
  tomlUnmarshal := fun content =>
    if content = "[[" then Except.error "toml: incomplete array table"
    else if content = "" then Except.ok none
    else Except.ok (some [("log_level", DocValue.parsed content),
      ("proxies", DocValue.parsed "old")])
  tomlMarshal := fun d =>
    Except.ok (String.intercalate "|" (d.map (fun kv => kv.1 ++ "=" ++ showValue kv.2)))
  readFile := fun fs path =>
    match fs.lookup path with
    | some content => Except.ok content
    | none => Except.error "no such file or directory"
  writeFile := fun fs path content => ((path, content) :: fs.filter (fun f => f.1 != path), none)
  getOrCreateConfigRow := fun d sourcePath cwd configJSON =>
    GetOrCreateConfigRow contentID d sourcePath cwd configJSON

/-- The same libraries over a read-only file: `os.WriteFile` fails on open and
leaves the file as it was. -/
def readOnlyExt : Ext String Files DB :=
  { ext with writeFile := fun fs _ _ => (fs, some "permission denied") }

/-- The same libraries over a full disk: `os.WriteFile` opens the file, which
truncates it, and the write then fails. -/
def diskFullExt : Ext String Files DB :=
  { ext with writeFile := fun fs path _ =>
      ((path, "") :: fs.filter (fun f => f.1 != path), some "no space left on device") }

/-- The same libraries with a serializer that rejects every document. -/
def noMarshalExt : Ext String Files DB :=
  { ext with tomlMarshal := fun _ => Except.error "toml: unsupported type" }

/-- The same libraries with a store that is down. -/
def storeDownExt : Ext String Files DB :=
  { ext with getOrCreateConfigRow := fun d _ _ _ => (Except.error "database is locked", d) }

/-- A registry with three selected identifiers: "a" has info and a server, "b"
has info but no server, "c" has neither; "d" has info and a server but is not
selected. -/
def registry (mirror : Option SysConfig) : GlobalVarT :=
  { configs := ["a", "b", "c"],
    proxyConfigs := [
      ("a", { ListenAddr := ":8080", TargetURL := { text := "http://localhost:3000" },
              TruncateLogBody := true }),
      ("b", { ListenAddr := ":8081", TargetURL := { text := "http://localhost:3001" },
              TruncateLogBody := false }),
      ("d", { ListenAddr := ":8083", TargetURL := { text := "http://localhost:3003" },
              TruncateLogBody := false })],
    proxyServers := ["a", "d"],
    sysConfig := mirror }

/-- A world with the config file "ihpp.toml" holding `content`. -/
def world (configFile content : String) (mirror : Option SysConfig) : World Files :=
  { configFile := configFile, cwd := Except.ok "/home/u/proj",
    fs := [("ihpp.toml", content)], gv := registry mirror, trace := [] }

/-- A world started from flags in a directory `os.Getwd` cannot name. -/
def noCwdWorld : World Files :=
  { configFile := "", cwd := Except.error "getwd: no such file or directory",
    fs := [], gv := registry none, trace := [] }

/-- A store with the rows "a" (two sessions) and "b" (one session), over the
registry of `registry`, in which "a" has a running server and "b" has none. -/
def app : App :=
  { db := { configs := [
              { ID := "a", SourcePath := "ihpp.toml", Cwd := "/home/u/proj", ConfigJSON := "A" },
              { ID := "b", SourcePath := "cli-flags", Cwd := "/home/u/proj", ConfigJSON := "B" }],
            sessions := [
              { ConfigID := "a", RequestURL := "/one" },
              { ConfigID := "b", RequestURL := "/two" },
              { ConfigID := "a", RequestURL := "/three" }],
            fault := none },
    gv := registry none }

/-- The state of `app` over a storage that fails. -/
def faultyApp : App :=
  { app with db := { app.db with fault := some "database is locked" } }

/-- A mirror with no proxies and one other setting. -/
def mirror0 : SysConfig := { Proxies := [], Rest := [("log_level", "debug")] }

/-- The one entry the registry of `registry` exports. -/
def entryA : SysConfigProxyEntry :=
  { Listen := ":8080", Target := "http://localhost:3000", TruncateLogBody := true }

end Demo

/-! ## The claims' own wording, as definitions to compare the code with -/

namespace Core

/-- Claim C2's record for one identifier: present when the identifier both has
registry info and has a running server. -/
def exportedEntry (g : GlobalVarT) (id : String) : Option SysConfigProxyEntry :=
  match g.GetProxyConfig id with
  | some pc =>
    if g.HasProxyServer id then
      some { Listen := pc.ListenAddr, Target := pc.TargetURL.text,
             TruncateLogBody := pc.TruncateLogBody }
    else none
  | none => none

/-- Claim C2's list: walk the identifiers in order and keep the records of those
that are both registered and running. -/
def selectedAndActive (g : GlobalVarT) (ids : List String) : List SysConfigProxyEntry :=
  ids.filterMap (exportedEntry g)

end Core

namespace Api

open Core

/-- Claim C10's selected set: the registry after `ConfigClear` followed by one
`ConfigAdd` call per identifier of `ids`. -/
def selectedBy (gv0 : GlobalVarT) (ids : List String) : GlobalVarT :=
  ids.foldl GlobalVarT.ConfigAdd gv0.ConfigClear

end Api

/-! ## Lemmas on documents and on the export loop -/

namespace Core

theorem Doc.get_set_self {V : Type} (d : Doc V) (k : String) (v : DocValue V) :
    (d.set k v).get k = some v := by
  simp [Doc.get, Doc.set, List.lookup]

theorem Doc.lookup_filter_ne {V : Type} (d : Doc V) (k k0 : String) (h : k ≠ k0) :
    (d.filter (fun kv => kv.1 != k0)).lookup k = d.lookup k := by
  induction d with
  | nil => rfl
  | cons kv rest ih =>
    obtain ⟨a, b⟩ := kv
    by_cases hak : a = k0
    · subst hak
      have hka : (k == a) = false := by simpa using h
      simp [List.filter, List.lookup, hka, ih]
    · have hne : (a != k0) = true := by simpa using hak
      simp only [List.filter, hne, List.lookup]
      cases hk : (k == a) <;> simp [ih]

theorem Doc.get_set_ne {V : Type} (d : Doc V) (k k0 : String) (v : DocValue V)
    (h : k ≠ k0) : (d.set k0 v).get k = d.get k := by
  have hk : (k == k0) = false := by simpa using h
  simp only [Doc.get, Doc.set, List.lookup, hk]
  exact Doc.lookup_filter_ne d k k0 h

theorem collectActive_eq (g : GlobalVarT) (ids : List String)
    (acc : List SysConfigProxyEntry) :
    collectActive g ids acc = acc ++ selectedAndActive g ids := by
  induction ids generalizing acc with
  | nil => simp [collectActive, selectedAndActive]
  | cons id rest ih =>
    simp only [collectActive, selectedAndActive, List.filterMap_cons, exportedEntry]
    cases hpc : g.GetProxyConfig id with
    | none => simpa [selectedAndActive, exportedEntry] using ih acc
    | some pc =>
      cases hs : g.HasProxyServer id with
      | false => simpa [selectedAndActive, exportedEntry] using ih acc
      | true =>
        simp only [if_true]
        rw [ih]
        simp [selectedAndActive, exportedEntry, entryOf, URL.String]

theorem activeProxies_eq (g : GlobalVarT) :
    activeProxies g = selectedAndActive g g.ConfigGetAll := by
  simp [activeProxies, collectActive_eq]

/-- The world a successful export leaves: the file system after the write, the
mirror after lines 86-90, and the three calls made. -/
theorem export_success {V F D : Type} (x : Ext V F D) (w : World F)
    (hok : (ExportCurrentProxiesToConfig x w).1 = Outcome.returned none) :
    ∃ content data newContent,
      w.configFile ≠ "" ∧
      x.readFile w.fs w.configFile = Except.ok content ∧
      x.tomlUnmarshal content = Except.ok (some data) ∧
      x.tomlMarshal (data.set "proxies" (DocValue.entries (activeProxies w.gv)))
        = Except.ok newContent ∧
      (x.writeFile w.fs w.configFile newContent).2 = none ∧
      (ExportCurrentProxiesToConfig x w).2.fs
        = (x.writeFile w.fs w.configFile newContent).1 ∧
      (ExportCurrentProxiesToConfig x w).2.gv = updateMirror w.gv (activeProxies w.gv) ∧
      (ExportCurrentProxiesToConfig x w).2.trace
        = w.trace ++ [Event.configFileUsed, Event.readFile w.configFile,
            Event.writeFile w.configFile newContent] := by
  unfold ExportCurrentProxiesToConfig at hok ⊢
  simp only [World.emit] at hok ⊢
  by_cases hp : w.configFile = ""
  · simp [hp] at hok
  · simp only [hp, if_false] at hok ⊢
    cases hr : x.readFile w.fs w.configFile with
    | error e => simp [hr] at hok
    | ok content =>
      simp only [hr] at hok ⊢
      rcases hu : x.tomlUnmarshal content with e | _ | data
      · simp [hu] at hok
      · simp [hu] at hok
      · simp only [hu] at hok ⊢
        cases hm : x.tomlMarshal (data.set "proxies" (DocValue.entries (activeProxies w.gv))) with
        | error e => simp [hm] at hok
        | ok newContent =>
          simp only [hm] at hok ⊢
          rcases hw : x.writeFile w.fs w.configFile newContent with ⟨fs1, _ | err⟩
          · refine ⟨content, data, newContent, hp, ?_, ?_, ?_, ?_, ?_, ?_, ?_⟩ <;>
              first
                | assumption
                | simp [hw, hm, hr, hu]
          · simp [hw] at hok

end Core

/-! ## `RegisterConfiguration` -/

namespace Core

/-- C6: with no persistence backend (`db == nil`) registration is a no-op: for
every proxy entry, whatever the libraries and the world are, it returns the
empty identifier and no error and leaves the world as it was, its trace
included: no call to viper, `os.Getwd`, the store or the registry is made. -/
theorem register_without_store {V F D : Type} (x : Ext V F D)
    (proxyEntry : SysConfigProxyEntry) (w : World F) :
    RegisterConfiguration x none proxyEntry w = (("", none), none, w) := by
  rfl

/-- The run of a registration against a store that is down: the empty identifier
and the store's error. -/
theorem register_store_down_run :
    (RegisterConfiguration Demo.storeDownExt (some DB.empty) Demo.entryA
        (Demo.world "ihpp.toml" "x" none)).1 = ("", some "database is locked") ∧
    (RegisterConfiguration Demo.storeDownExt (some DB.empty) Demo.entryA
        (Demo.world "ihpp.toml" "x" none)).2.2.trace
      = [Event.configFileUsed, Event.getwd,
         Event.getOrCreateConfigRow "ihpp.toml" "/home/u/proj"
           ":8080 -> http://localhost:3000 (truncate)"] := by
  decide

/-- C9 fails as stated: started from flags in a directory `os.Getwd` cannot
name, the store is called with "." as working directory; no directory reported
by `os.Getwd` is passed on. -/
theorem register_getwd_failure_counterexample :
    (RegisterConfiguration Demo.ext (some DB.empty) Demo.entryA Demo.noCwdWorld).2.2.trace
      = [Event.configFileUsed, Event.getwd,
         Event.logWarn "Could not determine current working directory",
         Event.getOrCreateConfigRow "cli-flags" "." ":8080 -> http://localhost:3000 (truncate)",
         Event.logInfo "Configuration session initialized"
           "cli-flags|.|:8080 -> http://localhost:3000 (truncate)"] ∧
    ¬ ∃ dir, Demo.noCwdWorld.cwd = Except.ok dir ∧
        Event.getOrCreateConfigRow "cli-flags" dir ":8080 -> http://localhost:3000 (truncate)"
          ∈ (RegisterConfiguration Demo.ext (some DB.empty) Demo.entryA
              Demo.noCwdWorld).2.2.trace := by
  refine ⟨by decide, ?_⟩
  rintro ⟨dir, hdir, -⟩
  simp [Demo.noCwdWorld] at hdir

/-- C9, amended: with a store, registration is a delegation to get-or-create.
When the entry does not serialize, the store is not called and the result is the
empty identifier with that error. Otherwise `GetOrCreateConfigRow` is called
exactly once, with the config file path (or "cli-flags" when there is none),
with the directory `os.Getwd` reports (or "." when it fails, after a warning),
and with the serialized entry; a row gives its ID and no error, a store failure
gives the empty identifier and that error. -/
theorem register_delegates {V F D : Type} (x : Ext V F D) (d : D)
    (proxyEntry : SysConfigProxyEntry) (w : World F) :
    match x.jsonMarshal proxyEntry with
    | Except.error err =>
      (RegisterConfiguration x (some d) proxyEntry w).1 = ("", some err) ∧
      (RegisterConfiguration x (some d) proxyEntry w).2.1 = some d ∧
      (RegisterConfiguration x (some d) proxyEntry w).2.2.trace
        = w.trace ++ [Event.configFileUsed, Event.getwd] ++ getwdWarning w.cwd
    | Except.ok configJSON =>
      (RegisterConfiguration x (some d) proxyEntry w).2.1
        = some (x.getOrCreateConfigRow d (sourcePathOf w.configFile) (workingDirOf w.cwd)
            configJSON).2 ∧
      match (x.getOrCreateConfigRow d (sourcePathOf w.configFile) (workingDirOf w.cwd)
          configJSON).1 with
      | Except.ok configRow =>
        (RegisterConfiguration x (some d) proxyEntry w).1 = (configRow.ID, none) ∧
        (RegisterConfiguration x (some d) proxyEntry w).2.2.trace
          = w.trace ++ [Event.configFileUsed, Event.getwd] ++ getwdWarning w.cwd
            ++ [Event.getOrCreateConfigRow (sourcePathOf w.configFile) (workingDirOf w.cwd)
                  configJSON,
                Event.logInfo "Configuration session initialized" configRow.ID]
      | Except.error err =>
        (RegisterConfiguration x (some d) proxyEntry w).1 = ("", some err) ∧
        (RegisterConfiguration x (some d) proxyEntry w).2.2.trace
          = w.trace ++ [Event.configFileUsed, Event.getwd] ++ getwdWarning w.cwd
            ++ [Event.getOrCreateConfigRow (sourcePathOf w.configFile) (workingDirOf w.cwd)
                  configJSON] := by
  unfold RegisterConfiguration
  simp only [World.emit]
  cases hj : x.jsonMarshal proxyEntry with
  | error err => simp
  | ok configJSON =>
    simp only
    rcases hc : x.getOrCreateConfigRow d (sourcePathOf w.configFile) (workingDirOf w.cwd)
      configJSON with ⟨_ | _, d1⟩ <;> simp

end Core

/-! ## `ExportCurrentProxiesToConfig` -/

namespace Core

/-- C7: export needs a known configuration file: when the path in use is empty it
returns the no-config-file error and does nothing else; the file system and the
registry with its in-memory mirror are as before, and the only call made is the
question to viper, so no file is read or written. -/
theorem export_requires_config_file {V F D : Type} (x : Ext V F D) (w : World F)
    (hpath : w.configFile = "") :
    (ExportCurrentProxiesToConfig x w).1 = Outcome.returned (some "no config file currently in use") ∧
    (ExportCurrentProxiesToConfig x w).2.fs = w.fs ∧
    (ExportCurrentProxiesToConfig x w).2.gv = w.gv ∧
    (ExportCurrentProxiesToConfig x w).2.trace = w.trace ++ [Event.configFileUsed] := by
  simp [ExportCurrentProxiesToConfig, World.emit, hpath]

theorem export_requires_config_file_witness :
    (Demo.world "" "x" (some Demo.mirror0)).configFile = "" ∧
    (ExportCurrentProxiesToConfig Demo.ext (Demo.world "" "x" (some Demo.mirror0))).1
      = Outcome.returned (some "no config file currently in use") ∧
    (ExportCurrentProxiesToConfig Demo.ext (Demo.world "" "x" (some Demo.mirror0))).2.fs
      = (Demo.world "" "x" (some Demo.mirror0)).fs ∧
    (ExportCurrentProxiesToConfig Demo.ext (Demo.world "" "x" (some Demo.mirror0))).2.gv
      = (Demo.world "" "x" (some Demo.mirror0)).gv ∧
    (ExportCurrentProxiesToConfig Demo.ext (Demo.world "" "x" (some Demo.mirror0))).2.trace
      = (Demo.world "" "x" (some Demo.mirror0)).trace ++ [Event.configFileUsed] :=
  ⟨rfl, export_requires_config_file Demo.ext (Demo.world "" "x" (some Demo.mirror0)) rfl⟩

/-- C1: a successful export keeps every top-level key other than "proxies": for
every parsed document `d` and every registry state, the document that is
serialized and written to the config file has, at every key other than
"proxies", the presence and the value `d` has there. -/
theorem export_preserves_other_keys {V F D : Type} (x : Ext V F D) (w : World F)
    (content : String) (d : Doc V)
    (hread : x.readFile w.fs w.configFile = Except.ok content)
    (hparse : x.tomlUnmarshal content = Except.ok (some d))
    (hok : (ExportCurrentProxiesToConfig x w).1 = Outcome.returned none) :
    ∃ written newContent,
      x.tomlMarshal written = Except.ok newContent ∧
      (ExportCurrentProxiesToConfig x w).2.trace
        = w.trace ++ [Event.configFileUsed, Event.readFile w.configFile,
            Event.writeFile w.configFile newContent] ∧
      (ExportCurrentProxiesToConfig x w).2.fs
        = (x.writeFile w.fs w.configFile newContent).1 ∧
      ∀ k, k ≠ "proxies" → written.get k = d.get k := by
  obtain ⟨content1, data, newContent, -, hr, hu, hm, -, hfs, -, htr⟩ := export_success x w hok
  rw [hread] at hr
  cases hr
  rw [hparse] at hu
  cases hu
  exact ⟨_, newContent, hm, htr, hfs, fun k hk => Doc.get_set_ne _ k "proxies" _ hk⟩

theorem export_preserves_other_keys_witness :
    Demo.ext.readFile (Demo.world "ihpp.toml" "x" none).fs
        (Demo.world "ihpp.toml" "x" none).configFile = Except.ok "x" ∧
    Demo.ext.tomlUnmarshal "x"
      = Except.ok (some [("log_level", DocValue.parsed "x"),
          ("proxies", DocValue.parsed "old")]) ∧
    (ExportCurrentProxiesToConfig Demo.ext (Demo.world "ihpp.toml" "x" none)).1 = Outcome.returned none ∧
    ∃ written newContent,
      Demo.ext.tomlMarshal written = Except.ok newContent ∧
      (ExportCurrentProxiesToConfig Demo.ext (Demo.world "ihpp.toml" "x" none)).2.trace
        = (Demo.world "ihpp.toml" "x" none).trace
          ++ [Event.configFileUsed, Event.readFile (Demo.world "ihpp.toml" "x" none).configFile,
              Event.writeFile (Demo.world "ihpp.toml" "x" none).configFile newContent] ∧
      (ExportCurrentProxiesToConfig Demo.ext (Demo.world "ihpp.toml" "x" none)).2.fs
        = (Demo.ext.writeFile (Demo.world "ihpp.toml" "x" none).fs
            (Demo.world "ihpp.toml" "x" none).configFile newContent).1 ∧
      ∀ k, k ≠ "proxies" → written.get k
        = Doc.get [("log_level", DocValue.parsed "x"), ("proxies", DocValue.parsed "old")] k :=
  ⟨rfl, rfl, by decide,
    export_preserves_other_keys Demo.ext (Demo.world "ihpp.toml" "x" none) "x" _ rfl rfl
      (by decide)⟩

/-- C2: a successful export sets "proxies" to exactly the list got by walking the
selected identifiers (`ConfigGetAll`) in order and keeping, for each identifier
with registry info and a running server, the record of its listen address, its
target as a string and its truncation flag. The list is computed from the
registry alone, whatever the parsed document `d` held under "proxies", and
every entry of it comes from an identifier that is selected, registered and
running. -/
theorem export_sets_proxies {V F D : Type} (x : Ext V F D) (w : World F)
    (content : String) (d : Doc V)
    (hread : x.readFile w.fs w.configFile = Except.ok content)
    (hparse : x.tomlUnmarshal content = Except.ok (some d))
    (hok : (ExportCurrentProxiesToConfig x w).1 = Outcome.returned none) :
    (∃ newContent,
      x.tomlMarshal (d.set "proxies"
          (DocValue.entries (selectedAndActive w.gv w.gv.ConfigGetAll)))
        = Except.ok newContent ∧
      (ExportCurrentProxiesToConfig x w).2.trace
        = w.trace ++ [Event.configFileUsed, Event.readFile w.configFile,
            Event.writeFile w.configFile newContent] ∧
      (ExportCurrentProxiesToConfig x w).2.fs
        = (x.writeFile w.fs w.configFile newContent).1) ∧
    (d.set "proxies" (DocValue.entries (selectedAndActive w.gv w.gv.ConfigGetAll))).get
        "proxies"
      = some (DocValue.entries (selectedAndActive w.gv w.gv.ConfigGetAll)) ∧
    ∀ e ∈ selectedAndActive w.gv w.gv.ConfigGetAll,
      ∃ id ∈ w.gv.ConfigGetAll, ∃ pc, w.gv.GetProxyConfig id = some pc ∧
        w.gv.HasProxyServer id = true ∧
        e = { Listen := pc.ListenAddr, Target := pc.TargetURL.String,
              TruncateLogBody := pc.TruncateLogBody } := by
  obtain ⟨content1, data, newContent, -, hr, hu, hm, -, hfs, -, htr⟩ := export_success x w hok
  rw [hread] at hr
  cases hr
  rw [hparse] at hu
  cases hu
  rw [activeProxies_eq] at hm
  refine ⟨⟨newContent, hm, htr, hfs⟩, Doc.get_set_self _ _ _, ?_⟩
  intro e he
  obtain ⟨id, hid, hentry⟩ := List.mem_filterMap.mp he
  refine ⟨id, hid, ?_⟩
  unfold exportedEntry at hentry
  cases hpc : w.gv.GetProxyConfig id with
  | none => simp [hpc] at hentry
  | some pc =>
    cases hs : w.gv.HasProxyServer id with
    | false => simp [hpc, hs] at hentry
    | true =>
      simp only [hpc, hs, if_true, Option.some.injEq] at hentry
      exact ⟨pc, rfl, rfl, by simp [← hentry, URL.String]⟩

theorem export_sets_proxies_witness :
    Demo.ext.readFile (Demo.world "ihpp.toml" "x" (some Demo.mirror0)).fs
        (Demo.world "ihpp.toml" "x" (some Demo.mirror0)).configFile = Except.ok "x" ∧
    Demo.ext.tomlUnmarshal "x"
      = Except.ok (some [("log_level", DocValue.parsed "x"),
          ("proxies", DocValue.parsed "old")]) ∧
    (ExportCurrentProxiesToConfig Demo.ext
      (Demo.world "ihpp.toml" "x" (some Demo.mirror0))).1 = Outcome.returned none ∧
    selectedAndActive (Demo.registry (some Demo.mirror0)) ["a", "b", "c"] = [Demo.entryA] ∧
    (Doc.set [("log_level", DocValue.parsed "x"), ("proxies", DocValue.parsed "old")] "proxies"
        (DocValue.entries (selectedAndActive (Demo.world "ihpp.toml" "x" (some Demo.mirror0)).gv
          (Demo.world "ihpp.toml" "x" (some Demo.mirror0)).gv.ConfigGetAll))).get "proxies"
      = some (DocValue.entries (selectedAndActive
          (Demo.world "ihpp.toml" "x" (some Demo.mirror0)).gv
          (Demo.world "ihpp.toml" "x" (some Demo.mirror0)).gv.ConfigGetAll)) :=
  ⟨rfl, rfl, by decide, by decide,
    (export_sets_proxies Demo.ext (Demo.world "ihpp.toml" "x" (some Demo.mirror0)) "x"
      [("log_level", DocValue.parsed "x"), ("proxies", DocValue.parsed "old")] rfl rfl
      (by decide)).2.1⟩

/-- C8 fails as stated: when no system configuration is loaded (`GetSysConfig`
is nil) the export succeeds and writes a document whose "proxies" list holds
the entry of "a", while the in-memory mirror stays nil: no `Proxies` field
carries that list. -/
theorem export_nil_mirror_counterexample :
    (ExportCurrentProxiesToConfig Demo.ext (Demo.world "ihpp.toml" "x" none)).1 = Outcome.returned none ∧
    Demo.ext.tomlMarshal [("proxies", DocValue.entries [Demo.entryA]),
        ("log_level", DocValue.parsed "x")]
      = Except.ok "proxies=:8080 -> http://localhost:3000 (truncate)|log_level=x" ∧
    (ExportCurrentProxiesToConfig Demo.ext (Demo.world "ihpp.toml" "x" none)).2.trace
      = [Event.configFileUsed, Event.readFile "ihpp.toml",
         Event.writeFile "ihpp.toml"
           "proxies=:8080 -> http://localhost:3000 (truncate)|log_level=x"] ∧
    ¬ ∃ sc, (ExportCurrentProxiesToConfig Demo.ext
          (Demo.world "ihpp.toml" "x" none)).2.gv.GetSysConfig = some sc ∧
        sc.Proxies = [Demo.entryA] := by
  refine ⟨by decide, rfl, by decide, ?_⟩
  rintro ⟨sc, hsc, -⟩
  have hnil : (ExportCurrentProxiesToConfig Demo.ext
      (Demo.world "ihpp.toml" "x" none)).2.gv.GetSysConfig = none := by decide
  rw [hnil] at hsc
  cases hsc

/-- C8, amended: after every successful export the in-memory mirror, when a
system configuration is loaded, carries in `Proxies` the list stored under
"proxies" in the document written to disk, entry for entry and in the same
order, its other fields untouched; when none is loaded (`GetSysConfig` is nil)
the mirror stays nil. -/
theorem export_mirror_matches_file {V F D : Type} (x : Ext V F D) (w : World F)
    (hok : (ExportCurrentProxiesToConfig x w).1 = Outcome.returned none) :
    ∃ written newContent l,
      x.tomlMarshal written = Except.ok newContent ∧
      (ExportCurrentProxiesToConfig x w).2.trace
        = w.trace ++ [Event.configFileUsed, Event.readFile w.configFile,
            Event.writeFile w.configFile newContent] ∧
      written.get "proxies" = some (DocValue.entries l) ∧
      (ExportCurrentProxiesToConfig x w).2.gv.GetSysConfig
        = w.gv.GetSysConfig.map (fun sc => { sc with Proxies := l }) := by
  obtain ⟨content1, data, newContent, -, hr, hu, hm, -, hfs, hgv, htr⟩ := export_success x w hok
  refine ⟨_, newContent, activeProxies w.gv, hm, htr, Doc.get_set_self _ _ _, ?_⟩
  rw [hgv]
  unfold updateMirror
  cases hsc : w.gv.GetSysConfig with
  | none => simpa using hsc
  | some sc => simp [GlobalVarT.SetSysConfig, GlobalVarT.GetSysConfig]

theorem export_mirror_matches_file_witness :
    (ExportCurrentProxiesToConfig Demo.ext
      (Demo.world "ihpp.toml" "y" (some Demo.mirror0))).1 = Outcome.returned none ∧
    ∃ written newContent l,
      Demo.ext.tomlMarshal written = Except.ok newContent ∧
      (ExportCurrentProxiesToConfig Demo.ext
          (Demo.world "ihpp.toml" "y" (some Demo.mirror0))).2.trace
        = (Demo.world "ihpp.toml" "y" (some Demo.mirror0)).trace
          ++ [Event.configFileUsed,
              Event.readFile (Demo.world "ihpp.toml" "y" (some Demo.mirror0)).configFile,
              Event.writeFile (Demo.world "ihpp.toml" "y" (some Demo.mirror0)).configFile
                newContent] ∧
      written.get "proxies" = some (DocValue.entries l) ∧
      (ExportCurrentProxiesToConfig Demo.ext
          (Demo.world "ihpp.toml" "y" (some Demo.mirror0))).2.gv.GetSysConfig
        = (Demo.world "ihpp.toml" "y" (some Demo.mirror0)).gv.GetSysConfig.map
            (fun sc => { sc with Proxies := l }) :=
  ⟨by decide,
    export_mirror_matches_file Demo.ext (Demo.world "ihpp.toml" "y" (some Demo.mirror0))
      (by decide)⟩

/-- The run of the export over a read-only config file: the write error is
returned and the file is as before, but the mirror, which held no proxies, now
holds the entry of "a". -/
theorem export_read_only_run :
    (ExportCurrentProxiesToConfig Demo.readOnlyExt
        (Demo.world "ihpp.toml" "x" (some Demo.mirror0))).1
      = Outcome.returned (some "failed to write config file: permission denied") ∧
    (ExportCurrentProxiesToConfig Demo.readOnlyExt
        (Demo.world "ihpp.toml" "x" (some Demo.mirror0))).2.fs = [("ihpp.toml", "x")] ∧
    (ExportCurrentProxiesToConfig Demo.readOnlyExt
        (Demo.world "ihpp.toml" "x" (some Demo.mirror0))).2.gv.GetSysConfig
      = some { Proxies := [Demo.entryA], Rest := [("log_level", "debug")] } := by
  decide

/-- The run of the export with a serializer that fails: the error is returned,
nothing is written, and the mirror is already updated. -/
theorem export_marshal_failure_run :
    (ExportCurrentProxiesToConfig Demo.noMarshalExt
        (Demo.world "ihpp.toml" "x" (some Demo.mirror0))).1
      = Outcome.returned (some "failed to marshal TOML: toml: unsupported type") ∧
    (ExportCurrentProxiesToConfig Demo.noMarshalExt
        (Demo.world "ihpp.toml" "x" (some Demo.mirror0))).2.trace
      = [Event.configFileUsed, Event.readFile "ihpp.toml"] ∧
    (ExportCurrentProxiesToConfig Demo.noMarshalExt
        (Demo.world "ihpp.toml" "x" (some Demo.mirror0))).2.gv.GetSysConfig
      = some { Proxies := [Demo.entryA], Rest := [("log_level", "debug")] } := by
  decide

/-- The run of the export over a config file without keys, with a parser that
leaves the map nil: the assignment of line 83 panics; nothing is written and the
registry is as before. -/
theorem export_nil_map_run :
    (ExportCurrentProxiesToConfig Demo.ext
        (Demo.world "ihpp.toml" "" (some Demo.mirror0))).1
      = Outcome.panicked "assignment to entry in nil map" ∧
    (ExportCurrentProxiesToConfig Demo.ext
        (Demo.world "ihpp.toml" "" (some Demo.mirror0))).2.fs = [("ihpp.toml", "")] ∧
    (ExportCurrentProxiesToConfig Demo.ext
        (Demo.world "ihpp.toml" "" (some Demo.mirror0))).2.gv
      = Demo.registry (some Demo.mirror0) ∧
    (ExportCurrentProxiesToConfig Demo.ext
        (Demo.world "ihpp.toml" "" (some Demo.mirror0))).2.trace
      = [Event.configFileUsed, Event.readFile "ihpp.toml"] := by
  decide

/-- C5 fails as stated: over a full disk `os.WriteFile` truncates the config file
and then fails; the export returns the write error, the file that held "x" is
left empty, and the in-memory mirror, which held no proxies, now holds the entry
of "a", because lines 86-90 ran before the write. -/
theorem export_write_failure_counterexample :
    (Demo.world "ihpp.toml" "x" (some Demo.mirror0)).fs = [("ihpp.toml", "x")] ∧
    (Demo.world "ihpp.toml" "x" (some Demo.mirror0)).gv.GetSysConfig
      = some { Proxies := [], Rest := [("log_level", "debug")] } ∧
    (ExportCurrentProxiesToConfig Demo.diskFullExt
        (Demo.world "ihpp.toml" "x" (some Demo.mirror0))).1
      = Outcome.returned (some "failed to write config file: no space left on device") ∧
    (ExportCurrentProxiesToConfig Demo.diskFullExt
        (Demo.world "ihpp.toml" "x" (some Demo.mirror0))).2.fs = [("ihpp.toml", "")] ∧
    (ExportCurrentProxiesToConfig Demo.diskFullExt
        (Demo.world "ihpp.toml" "x" (some Demo.mirror0))).2.gv.GetSysConfig
      = some { Proxies := [Demo.entryA], Rest := [("log_level", "debug")] } := by
  decide

/-- C5, amended: with a config file path in use, every way the export can fail
leaves a world this theorem fixes in full (file system, registry, calls made).
When reading or parsing fails, the error naming the step is returned and there
is no effect: file system and registry with its mirror are as before, nothing
is written. When the parser leaves the map nil, the export panics at line 83
instead of returning, also with no effect. When serializing the patched
document fails, the error is returned, file system and calls are as after a
read, and the registry is as before but for the mirror, already set by lines
86-90. When the write fails, the write error is returned, the file system is
the one `os.WriteFile` left, the write is the last call made, and the registry
is as before but for the mirror, already set by lines 86-90. -/
theorem export_failure_effects {V F D : Type} (x : Ext V F D) (w : World F)
    (hpath : w.configFile ≠ "") :
    (∀ err, x.readFile w.fs w.configFile = Except.error err →
      (ExportCurrentProxiesToConfig x w).1
        = Outcome.returned (some ("failed to read config file: " ++ err)) ∧
      (ExportCurrentProxiesToConfig x w).2.fs = w.fs ∧
      (ExportCurrentProxiesToConfig x w).2.gv = w.gv ∧
      (ExportCurrentProxiesToConfig x w).2.trace
        = w.trace ++ [Event.configFileUsed, Event.readFile w.configFile]) ∧
    (∀ content err, x.readFile w.fs w.configFile = Except.ok content →
      x.tomlUnmarshal content = Except.error err →
      (ExportCurrentProxiesToConfig x w).1
        = Outcome.returned (some ("failed to parse TOML: " ++ err)) ∧
      (ExportCurrentProxiesToConfig x w).2.fs = w.fs ∧
      (ExportCurrentProxiesToConfig x w).2.gv = w.gv ∧
      (ExportCurrentProxiesToConfig x w).2.trace
        = w.trace ++ [Event.configFileUsed, Event.readFile w.configFile]) ∧
    (∀ content, x.readFile w.fs w.configFile = Except.ok content →
      x.tomlUnmarshal content = Except.ok none →
      (ExportCurrentProxiesToConfig x w).1
        = Outcome.panicked "assignment to entry in nil map" ∧
      (ExportCurrentProxiesToConfig x w).2.fs = w.fs ∧
      (ExportCurrentProxiesToConfig x w).2.gv = w.gv ∧
      (ExportCurrentProxiesToConfig x w).2.trace
        = w.trace ++ [Event.configFileUsed, Event.readFile w.configFile]) ∧
    (∀ content data err, x.readFile w.fs w.configFile = Except.ok content →
      x.tomlUnmarshal content = Except.ok (some data) →
      x.tomlMarshal (data.set "proxies" (DocValue.entries (activeProxies w.gv)))
        = Except.error err →
      (ExportCurrentProxiesToConfig x w).1
        = Outcome.returned (some ("failed to marshal TOML: " ++ err)) ∧
      (ExportCurrentProxiesToConfig x w).2.fs = w.fs ∧
      (ExportCurrentProxiesToConfig x w).2.gv = updateMirror w.gv (activeProxies w.gv) ∧
      (ExportCurrentProxiesToConfig x w).2.trace
        = w.trace ++ [Event.configFileUsed, Event.readFile w.configFile]) ∧
    (∀ content data newContent err, x.readFile w.fs w.configFile = Except.ok content →
      x.tomlUnmarshal content = Except.ok (some data) →
      x.tomlMarshal (data.set "proxies" (DocValue.entries (activeProxies w.gv)))
        = Except.ok newContent →
      (x.writeFile w.fs w.configFile newContent).2 = some err →
      (ExportCurrentProxiesToConfig x w).1
        = Outcome.returned (some ("failed to write config file: " ++ err)) ∧
      (ExportCurrentProxiesToConfig x w).2.fs
        = (x.writeFile w.fs w.configFile newContent).1 ∧
      (ExportCurrentProxiesToConfig x w).2.gv = updateMirror w.gv (activeProxies w.gv) ∧
      (ExportCurrentProxiesToConfig x w).2.trace
        = w.trace ++ [Event.configFileUsed, Event.readFile w.configFile,
            Event.writeFile w.configFile newContent]) ∧
    (ExportCurrentProxiesToConfig x w).2.configFile = w.configFile ∧
    (ExportCurrentProxiesToConfig x w).2.cwd = w.cwd ∧
    (ExportCurrentProxiesToConfig x w).2.gv.configs = w.gv.configs ∧
    (ExportCurrentProxiesToConfig x w).2.gv.proxyConfigs = w.gv.proxyConfigs ∧
    (ExportCurrentProxiesToConfig x w).2.gv.proxyServers = w.gv.proxyServers := by
  refine ⟨?_, ?_, ?_, ?_, ?_, ?_⟩
  · intro err hr
    simp [ExportCurrentProxiesToConfig, World.emit, hpath, hr]
  · intro content err hr hu
    simp [ExportCurrentProxiesToConfig, World.emit, hpath, hr, hu]
  · intro content hr hu
    simp [ExportCurrentProxiesToConfig, World.emit, hpath, hr, hu]
  · intro content data err hr hu hm
    simp [ExportCurrentProxiesToConfig, World.emit, hpath, hr, hu, hm]
  · intro content data newContent err hr hu hm hw
    rcases hwf : x.writeFile w.fs w.configFile newContent with ⟨fs1, oerr⟩
    rw [hwf] at hw
    simp only at hw
    subst hw
    simp [ExportCurrentProxiesToConfig, World.emit, hpath, hr, hu, hm, hwf]
  · refine ⟨?_, ?_, ?_⟩
    · unfold ExportCurrentProxiesToConfig
      simp only [World.emit, hpath, if_false]
      cases hr : x.readFile w.fs w.configFile with
      | error e => simp
      | ok content =>
        rcases hu : x.tomlUnmarshal content with e | _ | data
        · simp [hu]
        · simp [hu]
        · simp only [hu]
          cases hm : x.tomlMarshal
              (data.set "proxies" (DocValue.entries (activeProxies w.gv))) with
          | error e => simp [hm]
          | ok newContent =>
            rcases hw : x.writeFile w.fs w.configFile newContent with ⟨fs1, _ | err⟩ <;>
              simp [hm, hw]
    · unfold ExportCurrentProxiesToConfig
      simp only [World.emit, hpath, if_false]
      cases hr : x.readFile w.fs w.configFile with
      | error e => simp
      | ok content =>
        rcases hu : x.tomlUnmarshal content with e | _ | data
        · simp [hu]
        · simp [hu]
        · simp only [hu]
          cases hm : x.tomlMarshal
              (data.set "proxies" (DocValue.entries (activeProxies w.gv))) with
          | error e => simp [hm]
          | ok newContent =>
            rcases hw : x.writeFile w.fs w.configFile newContent with ⟨fs1, _ | err⟩ <;>
              simp [hm, hw]
    have hmirror : ∀ l, (updateMirror w.gv l).configs = w.gv.configs ∧
        (updateMirror w.gv l).proxyConfigs = w.gv.proxyConfigs ∧
        (updateMirror w.gv l).proxyServers = w.gv.proxyServers := by
      intro l
      unfold updateMirror
      cases w.gv.GetSysConfig <;> simp [GlobalVarT.SetSysConfig]
    unfold ExportCurrentProxiesToConfig
    simp only [World.emit, hpath, if_false]
    cases hr : x.readFile w.fs w.configFile with
    | error e => simp
    | ok content =>
      rcases hu : x.tomlUnmarshal content with e | _ | data
      · simp [hu]
      · simp [hu]
      · simp only [hu]
        cases hm : x.tomlMarshal
            (data.set "proxies" (DocValue.entries (activeProxies w.gv))) with
        | error e => simpa [hm] using hmirror (activeProxies w.gv)
        | ok newContent =>
          rcases hw : x.writeFile w.fs w.configFile newContent with ⟨fs1, _ | err⟩ <;>
            simpa [hm, hw] using hmirror (activeProxies w.gv)

theorem export_failure_effects_witness :
    (Demo.world "gone.toml" "x" (some Demo.mirror0)).configFile ≠ "" ∧
    Demo.ext.readFile (Demo.world "gone.toml" "x" (some Demo.mirror0)).fs
        (Demo.world "gone.toml" "x" (some Demo.mirror0)).configFile
      = Except.error "no such file or directory" ∧
    (ExportCurrentProxiesToConfig Demo.ext
        (Demo.world "gone.toml" "x" (some Demo.mirror0))).1
      = Outcome.returned (some ("failed to read config file: " ++ "no such file or directory")) ∧
    (ExportCurrentProxiesToConfig Demo.ext
        (Demo.world "gone.toml" "x" (some Demo.mirror0))).2.fs
      = (Demo.world "gone.toml" "x" (some Demo.mirror0)).fs ∧
    (ExportCurrentProxiesToConfig Demo.ext
        (Demo.world "gone.toml" "x" (some Demo.mirror0))).2.gv
      = (Demo.world "gone.toml" "x" (some Demo.mirror0)).gv ∧
    (ExportCurrentProxiesToConfig Demo.ext
        (Demo.world "gone.toml" "x" (some Demo.mirror0))).2.trace
      = (Demo.world "gone.toml" "x" (some Demo.mirror0)).trace
        ++ [Event.configFileUsed,
            Event.readFile (Demo.world "gone.toml" "x" (some Demo.mirror0)).configFile] :=
  ⟨by decide, rfl,
    (export_failure_effects Demo.ext (Demo.world "gone.toml" "x" (some Demo.mirror0))
      (by decide)).1 "no such file or directory" rfl⟩

end Core

/-! ## The API handlers -/

namespace Api

open Core

/-- The run of `TestHandleDeleteConfig` on the handlers modelled from the spec:
every check passes. -/
theorem specServe_passes_delete_test :
    TestHandleDeleteConfig contentID specServe freshGlobalVar = [] := by
  decide

/-- The run of `TestHandleConfigs` on the handlers modelled from the spec: the
check of line 57 is the one that fails, one entry where two are expected. -/
theorem specServe_fails_configs_test :
    TestHandleConfigs contentID specServe freshGlobalVar
      = [TestError.count "configs" 2 1] := by
  decide

theorem configAdd_fold_mem (ids : List String) (g : GlobalVarT) (id : String) :
    id ∈ (ids.foldl GlobalVarT.ConfigAdd g).configs ↔ id ∈ g.configs ∨ id ∈ ids := by
  induction ids generalizing g with
  | nil => simp
  | cons head rest ih =>
    rw [List.foldl_cons, ih]
    unfold GlobalVarT.ConfigAdd
    by_cases hmem : head ∈ g.configs
    · simp only [hmem, if_true, List.mem_cons]
      constructor
      · rintro (h | h)
        · exact Or.inl h
        · exact Or.inr (Or.inr h)
      · rintro (h | h | h)
        · exact Or.inl h
        · exact Or.inl (h ▸ hmem)
        · exact Or.inr h
    · simp only [hmem, if_false, List.mem_append, List.mem_singleton, List.mem_cons]
      tauto

theorem configAdd_fold_nodup (ids : List String) (g : GlobalVarT) (h : g.configs.Nodup) :
    (ids.foldl GlobalVarT.ConfigAdd g).configs.Nodup := by
  induction ids generalizing g with
  | nil => simpa using h
  | cons head rest ih =>
    rw [List.foldl_cons]
    apply ih
    unfold GlobalVarT.ConfigAdd
    by_cases hmem : head ∈ g.configs
    · simpa [hmem] using h
    · simp only [hmem, if_false]
      exact List.Nodup.append h (List.nodup_singleton head) (by simpa using hmem)

theorem getByID_some (db : DB) (id : String) (row : ProxyConfigRow)
    (h : db.getByID id = some row) : row ∈ db.configs ∧ row.ID = id := by
  unfold DB.getByID at h
  exact ⟨List.mem_of_find?_eq_some h, by simpa using List.find?_some h⟩

theorem getByID_of_mem (db : DB) (id : String) (r : ProxyConfigRow)
    (hr : r ∈ db.configs) (hid : r.ID = id) : ∃ row, db.getByID id = some row := by
  unfold DB.getByID
  cases hfind : db.configs.find? (fun r => r.ID == id) with
  | some row => exact ⟨row, rfl⟩
  | none =>
    have hnone := List.find?_eq_none.mp hfind r hr
    simp [hid] at hnone

theorem selected_ids_sublist (db : DB) (sel : List String) :
    ((sel.filterMap db.getByID).map (fun row => row.ID)).Sublist sel := by
  induction sel with
  | nil => simp
  | cons id rest ih =>
    rw [List.filterMap_cons]
    cases hget : db.getByID id with
    | none => exact ih.cons id
    | some row =>
      have hid := (getByID_some db id row hget).2
      simp only [List.map_cons, hid]
      exact ih.cons₂ id

/-- C3: `DELETE configs/id` on an active configuration is refused: for every
store state and every identifier a proxy server is registered for, the handler
answers 409 and mutates nothing: the config rows, the session rows and the
registry are the same after the call as before. -/
theorem delete_active_refused (a : App) (id : String)
    (hactive : a.gv.HasProxyServer id = true) :
    (specServe a (Request.deleteConfig id)).1.Code = StatusConflict ∧
    (specServe a (Request.deleteConfig id)).2.db.configs = a.db.configs ∧
    (specServe a (Request.deleteConfig id)).2.db.sessions = a.db.sessions ∧
    (specServe a (Request.deleteConfig id)).2.gv = a.gv := by
  simp [specServe, handleDeleteConfig, hactive]

theorem delete_active_refused_witness :
    Demo.app.gv.HasProxyServer "a" = true ∧
    (specServe Demo.app (Request.deleteConfig "a")).1.Code = StatusConflict ∧
    (specServe Demo.app (Request.deleteConfig "a")).2.db.configs = Demo.app.db.configs ∧
    (specServe Demo.app (Request.deleteConfig "a")).2.db.sessions = Demo.app.db.sessions ∧
    (specServe Demo.app (Request.deleteConfig "a")).2.gv = Demo.app.gv :=
  ⟨by decide, delete_active_refused Demo.app "a" (by decide)⟩

/-- C4 fails as stated: over a storage that fails, the delete of "b", which is
not active, is not answered with 200: the store's error comes back under status
500, and the row "b" and its session are still there. -/
theorem delete_store_failure_counterexample :
    Demo.faultyApp.gv.HasProxyServer "b" = false ∧
    (specServe Demo.faultyApp (Request.deleteConfig "b")).1
      = { Code := 500, Body := Body.message "database is locked" } ∧
    (specServe Demo.faultyApp (Request.deleteConfig "b")).2.db.countConfigs "b" = 1 ∧
    (specServe Demo.faultyApp (Request.deleteConfig "b")).2.db.countSessions "b" = 1 := by
  decide

/-- C4, amended: `DELETE configs/id` on a configuration that is not active,
whether or not a row with that identifier exists. When the store's delete
succeeds the handler answers 200 and cascades: afterwards no config row has
that identifier and no session row has it as owner; restricted to any other
identifier both tables are as before; the registry is as before; when the
identifier was unknown nothing changes; and a second delete in a row answers
200 again and changes nothing. When the store fails, the handler answers with
the store's error under status 500 and nothing is removed. -/
theorem delete_inactive_cascades (a : App) (id : String)
    (hinactive : a.gv.HasProxyServer id = false) :
    match a.db.fault with
    | some err =>
      (specServe a (Request.deleteConfig id)).1
        = { Code := StatusInternalServerError, Body := Body.message err } ∧
      (specServe a (Request.deleteConfig id)).2 = a
    | none =>
      (specServe a (Request.deleteConfig id)).1.Code = StatusOK ∧
      (∀ row ∈ (specServe a (Request.deleteConfig id)).2.db.configs, row.ID ≠ id) ∧
      (∀ s ∈ (specServe a (Request.deleteConfig id)).2.db.sessions, s.ConfigID ≠ id) ∧
      (∀ other, other ≠ id →
        (specServe a (Request.deleteConfig id)).2.db.configs.filter
            (fun row => row.ID == other)
          = a.db.configs.filter (fun row => row.ID == other) ∧
        (specServe a (Request.deleteConfig id)).2.db.sessions.filter
            (fun s => s.ConfigID == other)
          = a.db.sessions.filter (fun s => s.ConfigID == other)) ∧
      (specServe a (Request.deleteConfig id)).2.gv = a.gv ∧
      ((∀ row ∈ a.db.configs, row.ID ≠ id) → (∀ s ∈ a.db.sessions, s.ConfigID ≠ id) →
        (specServe a (Request.deleteConfig id)).2 = a) ∧
      (specServe (specServe a (Request.deleteConfig id)).2 (Request.deleteConfig id)).1.Code
        = StatusOK ∧
      (specServe (specServe a (Request.deleteConfig id)).2 (Request.deleteConfig id)).2
        = (specServe a (Request.deleteConfig id)).2 := by
  cases hf : a.db.fault with
  | some err =>
    simp [specServe, handleDeleteConfig, hinactive, DB.deleteByID, hf]
  | none =>
    have hrun : specServe a (Request.deleteConfig id)
        = ({ Code := StatusOK, Body := Body.message "deleted" },
            { a with db := (a.db.deleteByID id).2 }) := by
      simp [specServe, handleDeleteConfig, hinactive, DB.deleteByID, hf]
    have hdb : (a.db.deleteByID id).2
        = { a.db with configs := a.db.configs.filter (fun r => r.ID != id),
                      sessions := a.db.sessions.filter (fun s => s.ConfigID != id) } := by
      simp [DB.deleteByID, hf]
    have hidem : ((a.db.deleteByID id).2.deleteByID id) = (none, (a.db.deleteByID id).2) := by
      rw [hdb]
      simp [DB.deleteByID, hf, List.filter_filter]
    have hrun2 : specServe { a with db := (a.db.deleteByID id).2 } (Request.deleteConfig id)
        = ({ Code := StatusOK, Body := Body.message "deleted" },
            { a with db := (a.db.deleteByID id).2 }) := by
      simp [specServe, handleDeleteConfig, hinactive, hidem]
    simp only
    rw [hrun]
    refine ⟨rfl, ?_, ?_, ?_, rfl, ?_, ?_, ?_⟩
    rotate_left 4
    · show (specServe { a with db := (a.db.deleteByID id).2 } (Request.deleteConfig id)).1.Code
        = _
      rw [hrun2]
    · show (specServe { a with db := (a.db.deleteByID id).2 } (Request.deleteConfig id)).2 = _
      rw [hrun2]
    · intro row hrow
      simp only [hdb] at hrow
      simpa using (List.mem_filter.mp hrow).2
    · intro s hs
      simp only [hdb] at hs
      simpa using (List.mem_filter.mp hs).2
    · intro other hother
      simp only [hdb]
      constructor
      · simp only [List.filter_filter]
        apply List.filter_congr
        intro row _
        by_cases h : row.ID = other
        · simp [h, hother]
        · simp [h]
      · simp only [List.filter_filter]
        apply List.filter_congr
        intro s _
        by_cases h : s.ConfigID = other
        · simp [h, hother]
        · simp [h]
    · intro hc hs
      have h1 : a.db.configs.filter (fun r => r.ID != id) = a.db.configs := by
        rw [List.filter_eq_self]
        intro row hrow
        simpa using hc row hrow
      have h2 : a.db.sessions.filter (fun s => s.ConfigID != id) = a.db.sessions := by
        rw [List.filter_eq_self]
        intro s hmem
        simpa using hs s hmem
      simp only [hdb, h1, h2]

theorem delete_inactive_cascades_witness :
    Demo.app.gv.HasProxyServer "b" = false ∧
    (specServe Demo.app (Request.deleteConfig "b")).1.Code = StatusOK ∧
    (specServe Demo.app (Request.deleteConfig "b")).2.db
      = { configs := [{ ID := "a", SourcePath := "ihpp.toml", Cwd := "/home/u/proj",
                        ConfigJSON := "A" }],
          sessions := [{ ConfigID := "a", RequestURL := "/one" },
                       { ConfigID := "a", RequestURL := "/three" }],
          fault := none } ∧
    ∀ row ∈ (specServe Demo.app (Request.deleteConfig "b")).2.db.configs, row.ID ≠ "b" :=
  ⟨by decide, (delete_inactive_cascades Demo.app "b" (by decide)).1, by decide,
    (delete_inactive_cascades Demo.app "b" (by decide)).2.1⟩

/-- C10: `GET configs` returns exactly the configuration rows of the selected
working set: for every store state and every selected set built by
`ConfigClear` followed by `ConfigAdd` calls, the handler answers 200 with a list
of rows of the store in which every row has a selected identifier, every
selected identifier that has a row in the store has one, and no identifier
occurs twice; the call changes nothing. `GET history` in the same state returns
every row of the store. -/
theorem configs_returns_selected_rows (db : DB) (gv0 : GlobalVarT) (ids : List String) :
    (∀ id, id ∈ (selectedBy gv0 ids).ConfigGetAll ↔ id ∈ ids) ∧
    ∃ rows,
      (specServe { db := db, gv := selectedBy gv0 ids } Request.getConfigs).1
        = { Code := StatusOK, Body := Body.configRows rows } ∧
      (specServe { db := db, gv := selectedBy gv0 ids } Request.getConfigs).2
        = { db := db, gv := selectedBy gv0 ids } ∧
      (∀ row ∈ rows, row.ID ∈ ids ∧ row ∈ db.configs) ∧
      (∀ id ∈ ids, (∃ r ∈ db.configs, r.ID = id) → ∃ row ∈ rows, row.ID = id) ∧
      (rows.map (fun row => row.ID)).Nodup ∧
      (specServe { db := db, gv := selectedBy gv0 ids } Request.getHistory).1
        = { Code := StatusOK, Body := Body.configRows db.configs } := by
  have hsel : ∀ id, id ∈ (selectedBy gv0 ids).ConfigGetAll ↔ id ∈ ids := by
    intro id
    unfold selectedBy GlobalVarT.ConfigGetAll
    rw [configAdd_fold_mem]
    simp [GlobalVarT.ConfigClear]
  have hnodup : (selectedBy gv0 ids).ConfigGetAll.Nodup := by
    unfold selectedBy GlobalVarT.ConfigGetAll
    apply configAdd_fold_nodup
    simp [GlobalVarT.ConfigClear]
  refine ⟨hsel, (selectedBy gv0 ids).ConfigGetAll.filterMap db.getByID, rfl, rfl, ?_, ?_, ?_,
    rfl⟩
  · intro row hrow
    obtain ⟨id, hid, hget⟩ := List.mem_filterMap.mp hrow
    obtain ⟨hmem, hrid⟩ := getByID_some db id row hget
    exact ⟨hrid ▸ (hsel id).mp hid, hmem⟩
  · rintro id hid ⟨r, hr, hrid⟩
    obtain ⟨row, hget⟩ := getByID_of_mem db id r hr hrid
    exact ⟨row, List.mem_filterMap.mpr ⟨id, (hsel id).mpr hid, hget⟩,
      (getByID_some db id row hget).2⟩
  · exact (selected_ids_sublist db _).nodup hnodup

end Api
